import Mathlib

/-!
Verification of the `Biro3Client` authentication, retry, caching and
decoding layer (VscBiro repository, `src/api/Biro3Client.ts` together with
`src/api/ApiError.ts` and `src/api/models.ts`).

The TypeScript code is shallowly embedded: every async method becomes a
pure Lean function that takes the relevant part of the client state plus
an oracle describing what the network (or a recovery call) would return,
and yields the new state together with an `Except` result and a trace of
the observable effects (call counts, log events).  JavaScript records are
embedded as association lists whose lookup keeps the last write, `null` and
`undefined` become `Option.none`, and thrown exceptions become
`Except.error`.
-/

/-- An error thrown inside the client.  `api` is an `ApiError` instance
(`src/api/ApiError.ts`) carrying the HTTP status and the computed message;
`jsError` is any other thrown value: a network-level transport failure from
`fetch`, a `DOMException` from `atob`, a `SyntaxError` from `res.json()`. -/
inductive Err where
  | api (status : Nat) (message : String)
  | jsError (message : String)
deriving Repr, DecidableEq

/-- One leveled message sent to the logging sink by `withReauth`
(`Biro3Client.withReauth`, part_001 lines 55-105). -/
inductive LogEvent where
  | warnNoAccessToken
  | warnRefreshing
  | warnLoggingInAgain
  | warnHttp (status : Nat)
  | errSwallowed (e : Err)
  | errNoCreds
deriving Repr, DecidableEq

/-- The observable behaviour of one `withReauth` invocation: the value
returned or error thrown, how many times the wrapped operation ran, how many
times `refreshAccessToken` and `fetchAccessToken` were called from the retry
machinery, the arguments of each `fetchAccessToken` call, and the log. -/
structure ReauthTrace (α : Type) where
  result : Except Err α
  fetchCalls : Nat
  refreshCalls : Nat
  loginCalls : Nat
  loginArgs : List (String × String)
  logs : List LogEvent
deriving Repr

/-- JavaScript truthiness of a `string | null` field: `null` and the empty
string are falsy. -/
def truthyOpt : Option String → Bool
  | none => false
  | some s => s != ""

/-- The log entries produced by the `catch` around a recovery call inside the
retry loop (part_001 lines 78-80 and 87-89): a failing recovery call is
swallowed after `log.error(String(error))`. -/
def swallowLog : Except Err Unit → List LogEvent
  | .ok _ => []
  | .error e => [.errSwallowed e]

/-- The retry loop of `Biro3Client.withReauth` (part_001 lines 66-104).
`username`/`password` are the stored credentials (nothing the loop calls
writes them with different values, so they stay fixed for the duration of
the loop).  `outcomes n` is what the `n`-th invocation of the wrapped
operation returns or throws; `refreshOutcome` and `loginOutcome` are what
`this.refreshAccessToken()` and `this.fetchAccessToken(username, password)`
would do (each is called at most once, and an error from either is caught
and logged, lines 76-80 / 85-89).  `retries` is the loop counter
(post-incremented in the `switch`) and the remaining arguments accumulate
the trace.

The `do/while(true)` loop re-enters its body only from the `case 0` and
`case 1` arms of the `switch`, each of which increments `retries`, so it
runs at most 3 iterations.  To keep the Lean recursion structural this
bound is made explicit as `fuel`, decremented exactly at the two `continue`
statements; the `fuel = 0` fallbacks mirror the `default:`/`throw` arm and
are unreachable from `withReauthLoop` (which enters with `fuel = 2`, enough
for both `continue`s — `withReauthGo_fuel_irrelevant` below shows a larger
budget changes nothing, i.e. the counter and not the fuel stops the loop). -/
def withReauthGo {α : Type} (username password : Option String)
    (outcomes : Nat → Except Err α)
    (refreshOutcome loginOutcome : Except Err Unit)
    (fuel retries fetchCount refreshCount loginCount : Nat)
    (loginArgs : List (String × String)) (logs : List LogEvent) :
    ReauthTrace α :=
  match outcomes fetchCount with
  | .ok v => ⟨.ok v, fetchCount + 1, refreshCount, loginCount, loginArgs, logs⟩
  | .error e =>
    match e with
    | .api status _ =>
      if status = 401 then
        match retries with
        | 0 =>
          match fuel with
          | 0 =>
            ⟨.error e, fetchCount + 1, refreshCount + 1, loginCount,
              loginArgs, logs ++ [.warnRefreshing] ++ swallowLog refreshOutcome⟩
          | f + 1 =>
            withReauthGo username password outcomes refreshOutcome loginOutcome
              f 1 (fetchCount + 1) (refreshCount + 1) loginCount loginArgs
              (logs ++ [.warnRefreshing] ++ swallowLog refreshOutcome)
        | 1 =>
          match username, password with
          | some u, some p =>
            if u ≠ "" ∧ p ≠ "" then
              match fuel with
              | 0 =>
                ⟨.error e, fetchCount + 1, refreshCount, loginCount + 1,
                  loginArgs ++ [(u, p)],
                  logs ++ [.warnLoggingInAgain] ++ swallowLog loginOutcome⟩
              | f + 1 =>
                withReauthGo username password outcomes refreshOutcome
                  loginOutcome f 2 (fetchCount + 1) refreshCount
                  (loginCount + 1) (loginArgs ++ [(u, p)])
                  (logs ++ [.warnLoggingInAgain] ++ swallowLog loginOutcome)
            else
              ⟨.error e, fetchCount + 1, refreshCount, loginCount, loginArgs,
                logs ++ [.errNoCreds]⟩
          | _, _ =>
            ⟨.error e, fetchCount + 1, refreshCount, loginCount, loginArgs,
              logs ++ [.errNoCreds]⟩
        | _ + 2 =>
          ⟨.error e, fetchCount + 1, refreshCount, loginCount, loginArgs, logs⟩
      else
        ⟨.error e, fetchCount + 1, refreshCount, loginCount, loginArgs,
          logs ++ [.warnHttp status]⟩
    | .jsError _ =>
      ⟨.error e, fetchCount + 1, refreshCount, loginCount, loginArgs, logs⟩

/-- The retry loop entered as `withReauth` enters it: `retries = 0`, an
empty trace, and fuel for the two possible `continue`s. -/
def withReauthLoop {α : Type} (username password : Option String)
    (outcomes : Nat → Except Err α)
    (refreshOutcome loginOutcome : Except Err Unit) : ReauthTrace α :=
  withReauthGo username password outcomes refreshOutcome loginOutcome
    2 0 0 0 0 [] []

/-! ## JavaScript records, JSON values and `JSON.parse`

The client stores fetched data in plain JavaScript objects indexed by
numeric ids, and parses response bodies with `JSON.parse`.  A record is
embedded as the list of its writes; `recordLookup` keeps the last write,
exactly as assignment to an object key does. -/

/-- One write to a JavaScript record. -/
def recordSet {κ β : Type} (r : List (κ × β)) (k : κ) (v : β) :
    List (κ × β) :=
  r ++ [(k, v)]

/-- Reading a JavaScript record key: the value of the last write to that
key, `none` for a key never written (`undefined`). -/
def recordLookup {κ β : Type} [DecidableEq κ] (r : List (κ × β)) (k : κ) :
    Option β :=
  r.foldl (fun acc kv => if kv.1 = k then some kv.2 else acc) none

/-- `listToRecord` (part_001 lines 16-22): builds a record from a list,
keyed by `key item`; a later item with the same key overwrites. -/
def listToRecord {β : Type} (items : List β) (key : β → Nat) :
    List (Nat × β) :=
  items.foldl (fun res item => recordSet res (key item) item) []

/-- A JSON value as `JSON.parse` produces it.  Numbers are kept exactly as
`mantissa * 10 ^ exponent` (the digits and the scale of the literal);
object fields are in source order, duplicates resolved by `recordLookup`. -/
inductive JsonVal where
  | null
  | bool (b : Bool)
  | num (mantissa : Int) (exponent : Int)
  | str (s : String)
  | arr (items : List JsonVal)
  | obj (fields : List (String × JsonVal))
deriving Repr

/-- Reading a field of a parsed JSON value, as `d['message']` does on an
object (`undefined`, i.e. `none`, on a missing key or a non-object). -/
def objGet : JsonVal → String → Option JsonVal
  | .obj fields, k => recordLookup fields k
  | _, _ => none

/-- The replacement character U+FFFD. -/
def replacementChar : Char := Char.ofNat 0xFFFD

def isJsonWs (c : Char) : Bool :=
  c = ' ' ∨ c = '\t' ∨ c = '\n' ∨ c = '\r'

def skipWs : List Char → List Char
  | [] => []
  | c :: rest => if isJsonWs c then skipWs rest else c :: rest

def hexVal (c : Char) : Option Nat :=
  if '0' ≤ c ∧ c ≤ '9' then some (c.toNat - 48)
  else if 'a' ≤ c ∧ c ≤ 'f' then some (c.toNat - 97 + 10)
  else if 'A' ≤ c ∧ c ≤ 'F' then some (c.toNat - 65 + 10)
  else none

/-- Four hex digits of a `\uXXXX` escape. -/
def parseUnicodeEscape (l : List Char) : Option (Nat × List Char) :=
  match l with
  | h1 :: h2 :: h3 :: h4 :: rest =>
    match hexVal h1, hexVal h2, hexVal h3, hexVal h4 with
    | some a, some b, some c, some d =>
      some (a * 4096 + b * 256 + c * 16 + d, rest)
    | _, _, _, _ => none
  | _ => none

/-- The body of a JSON string literal, after the opening quote.  Returns the
decoded characters and the input after the closing quote, `none` on a
malformed literal (which makes `JSON.parse` throw).  A `\uXXXX` escape pair
of surrogates combines into one code point; a lone surrogate, which a
JavaScript string would keep as an unpaired UTF-16 unit, has no Lean `Char`
and is embedded as U+FFFD (no claim touches that corner). -/
def parseStringChars : Nat → List Char → Option (List Char × List Char)
  | 0, _ => none
  | _ + 1, [] => none
  | fuel + 1, c :: rest =>
    if c = '"' then some ([], rest)
    else if c = '\\' then
      match rest with
      | [] => none
      | e :: rest1 =>
        if e = '"' ∨ e = '\\' ∨ e = '/' then
          (parseStringChars fuel rest1).map (fun p => (e :: p.1, p.2))
        else if e = 'b' then
          (parseStringChars fuel rest1).map (fun p => ('\x08' :: p.1, p.2))
        else if e = 'f' then
          (parseStringChars fuel rest1).map (fun p => ('\x0c' :: p.1, p.2))
        else if e = 'n' then
          (parseStringChars fuel rest1).map (fun p => ('\n' :: p.1, p.2))
        else if e = 'r' then
          (parseStringChars fuel rest1).map (fun p => ('\r' :: p.1, p.2))
        else if e = 't' then
          (parseStringChars fuel rest1).map (fun p => ('\t' :: p.1, p.2))
        else if e = 'u' then
          match parseUnicodeEscape rest1 with
          | none => none
          | some (code, rest2) =>
            if 0xD800 ≤ code ∧ code ≤ 0xDBFF then
              match rest2 with
              | '\\' :: 'u' :: rest3 =>
                match parseUnicodeEscape rest3 with
                | some (lo, rest4) =>
                  if 0xDC00 ≤ lo ∧ lo ≤ 0xDFFF then
                    (parseStringChars fuel rest4).map (fun p =>
                      (Char.ofNat
                        (0x10000 + (code - 0xD800) * 0x400 + (lo - 0xDC00))
                        :: p.1, p.2))
                  else
                    (parseStringChars fuel rest2).map (fun p =>
                      (replacementChar :: p.1, p.2))
                | none =>
                  (parseStringChars fuel rest2).map (fun p =>
                    (replacementChar :: p.1, p.2))
              | _ =>
                (parseStringChars fuel rest2).map (fun p =>
                  (replacementChar :: p.1, p.2))
            else if 0xDC00 ≤ code ∧ code ≤ 0xDFFF then
              (parseStringChars fuel rest2).map (fun p =>
                (replacementChar :: p.1, p.2))
            else
              (parseStringChars fuel rest2).map (fun p =>
                (Char.ofNat code :: p.1, p.2))
        else none
    else if c.toNat < 0x20 then none
    else (parseStringChars fuel rest).map (fun p => (c :: p.1, p.2))

def digitVal (c : Char) : Option Nat :=
  if '0' ≤ c ∧ c ≤ '9' then some (c.toNat - 48) else none

/-- Leading decimal digits of the input. -/
def takeDigits : List Char → List Nat × List Char
  | [] => ([], [])
  | c :: rest =>
    match digitVal c with
    | some d =>
      match takeDigits rest with
      | (ds, r) => (d :: ds, r)
    | none => ([], c :: rest)

def digitsToNat (ds : List Nat) : Nat :=
  ds.foldl (fun acc d => acc * 10 + d) 0

/-- The fraction part of a JSON number: `some ([], _)` when there is none,
`none` when a lone dot makes the literal malformed. -/
def parseFracDigits (l : List Char) : Option (List Nat × List Char) :=
  match l with
  | '.' :: r =>
    match takeDigits r with
    | ([], _) => none
    | (ds, r1) => some (ds, r1)
  | _ => some ([], l)

/-- The exponent part of a JSON number (0 when there is none). -/
def parseExpPart (l : List Char) : Option (Int × List Char) :=
  match l with
  | [] => some (0, [])
  | c :: r =>
    if c = 'e' ∨ c = 'E' then
      match
        (match r with
         | '+' :: rr => ((1 : Int), rr)
         | '-' :: rr => ((-1 : Int), rr)
         | _ => ((1 : Int), r)) with
      | (sgn, r1) =>
        match takeDigits r1 with
        | ([], _) => none
        | (ds, r2) => some (sgn * Int.ofNat (digitsToNat ds), r2)
    else some (0, c :: r)

/-- A JSON number literal: optional minus, integer part (`0` or a nonzero
leading digit), optional fraction, optional exponent. -/
def parseNumber (l : List Char) : Option (JsonVal × List Char) :=
  match
    (match l with
     | '-' :: r => (true, r)
     | _ => (false, l)) with
  | (neg, l1) =>
    match
      (match l1 with
       | '0' :: r1 => some (([0] : List Nat), r1)
       | _ =>
         match takeDigits l1 with
         | ([], _) => none
         | (ds, r1) => some (ds, r1)) with
    | none => none
    | some (ids, r1) =>
      match parseFracDigits r1 with
      | none => none
      | some (fds, r2) =>
        match parseExpPart r2 with
        | none => none
        | some (ex, r3) =>
          some (.num
            (if neg then -(Int.ofNat (digitsToNat (ids ++ fds)))
             else Int.ofNat (digitsToNat (ids ++ fds)))
            (ex - Int.ofNat fds.length), r3)

def parseLiteral (l : List Char) : Option (JsonVal × List Char) :=
  match l with
  | 't' :: 'r' :: 'u' :: 'e' :: rest => some (.bool true, rest)
  | 'f' :: 'a' :: 'l' :: 's' :: 'e' :: rest => some (.bool false, rest)
  | 'n' :: 'u' :: 'l' :: 'l' :: rest => some (.null, rest)
  | _ => none

mutual

/-- One JSON value, leading whitespace allowed, per the `JSON.parse`
grammar.  The fuel only bounds the recursion; `jsonParse` supplies enough
for any input. -/
def parseValue : Nat → List Char → Option (JsonVal × List Char)
  | 0, _ => none
  | fuel + 1, l =>
    match skipWs l with
    | [] => none
    | c :: rest =>
      if c = '"' then
        (parseStringChars (rest.length + 1) rest).map (fun p =>
          (.str (String.mk p.1), p.2))
      else if c = '[' then
        match skipWs rest with
        | ']' :: r2 => some (.arr [], r2)
        | r2 => (parseArrayItems fuel r2).map (fun p => (.arr p.1, p.2))
      else if c = '\x7b' then
        match skipWs rest with
        | [] => none
        | c2 :: r2 =>
          if c2 = '\x7d' then some (.obj [], r2)
          else (parseObjectItems fuel (c2 :: r2)).map (fun p =>
            (.obj p.1, p.2))
      else if c = 't' ∨ c = 'f' ∨ c = 'n' then parseLiteral (c :: rest)
      else parseNumber (c :: rest)

/-- The elements of a non-empty JSON array, positioned at the first
element; consumes the closing bracket. -/
def parseArrayItems : Nat → List Char → Option (List JsonVal × List Char)
  | 0, _ => none
  | fuel + 1, l =>
    match parseValue fuel l with
    | none => none
    | some (v, r) =>
      match skipWs r with
      | ',' :: r2 => (parseArrayItems fuel r2).map (fun p => (v :: p.1, p.2))
      | ']' :: r2 => some ([v], r2)
      | _ => none

/-- The members of a non-empty JSON object, positioned at the first key;
consumes the closing brace. -/
def parseObjectItems :
    Nat → List Char → Option (List (String × JsonVal) × List Char)
  | 0, _ => none
  | fuel + 1, l =>
    match skipWs l with
    | '"' :: r =>
      match parseStringChars (r.length + 1) r with
      | none => none
      | some (kcs, r1) =>
        match skipWs r1 with
        | ':' :: r2 =>
          match parseValue fuel r2 with
          | none => none
          | some (v, r3) =>
            match skipWs r3 with
            | [] => none
            | c :: r4 =>
              if c = ',' then
                (parseObjectItems fuel r4).map (fun p =>
                  ((String.mk kcs, v) :: p.1, p.2))
              else if c = '\x7d' then some ([(String.mk kcs, v)], r4)
              else none
        | _ => none
    | _ => none

end

/-- `JSON.parse`: one value covering the whole input (trailing whitespace
allowed), `none` when the parse throws a `SyntaxError`.  Each step of the
grammar either consumes a character or moves to a subterm, so `2 * length + 4`
fuel is never exhausted on any input. -/
def jsonParse (s : String) : Option JsonVal :=
  match parseValue (2 * s.toList.length + 4) s.toList with
  | some (v, rest) => if (skipWs rest).isEmpty then some v else none
  | none => none

/-! ## `atob` and `TextDecoder`

Report and submission-file contents arrive base64-encoded and are decoded
with `utf8Decoder.decode(Uint8Array.from(atob(item.content), v => v.charCodeAt(0)))`
(part_001 lines 347 and 367).  `atob` implements the WHATWG
forgiving-base64 decode and throws an `InvalidCharacterError` on bad input;
`charCodeAt` turns the binary string into its byte values, so the embedded
`atob` yields the bytes directly.  `TextDecoder` never throws: it is the
WHATWG UTF-8 decoder, substituting U+FFFD for invalid sequences and
stripping a leading byte-order mark. -/

def base64Char (c : Char) : Option Nat :=
  if 'A' ≤ c ∧ c ≤ 'Z' then some (c.toNat - 65)
  else if 'a' ≤ c ∧ c ≤ 'z' then some (c.toNat - 97 + 26)
  else if '0' ≤ c ∧ c ≤ '9' then some (c.toNat - 48 + 52)
  else if c = '+' then some 62
  else if c = '/' then some 63
  else none

/-- ASCII whitespace, removed before base64 decoding. -/
def isAsciiWs (c : Char) : Bool :=
  c = ' ' ∨ c = '\t' ∨ c = '\n' ∨ c = '\r' ∨ c.toNat = 12

/-- Up to two trailing `=` padding characters are removed when the length
is a multiple of 4. -/
def stripBase64Padding (l : List Char) : List Char :=
  if l.length % 4 = 0 then
    if l.getLast? = some '=' then
      if l.dropLast.getLast? = some '=' then l.dropLast.dropLast
      else l.dropLast
    else l
  else l

/-- 6-bit groups to bytes: 4 groups make 3 bytes, a trailing 3 make 2, a
trailing 2 make 1 (a trailing single group cannot occur: `atob` rejects
length 1 mod 4). -/
def sextetsToBytes : List Nat → List Nat
  | a :: b :: c :: d :: rest =>
    (a * 4 + b / 16) :: ((b % 16) * 16 + c / 4) :: ((c % 4) * 64 + d) ::
      sextetsToBytes rest
  | [a, b] => [a * 4 + b / 16]
  | [a, b, c] => [a * 4 + b / 16, (b % 16) * 16 + c / 4]
  | _ => []

/-- WHATWG forgiving-base64 decode, the semantics of `atob`: `none` means
`atob` throws an `InvalidCharacterError`. -/
def atob (s : String) : Option (List Nat) :=
  match stripBase64Padding (s.toList.filter (fun c => !isAsciiWs c)) with
  | data =>
    if data.length % 4 = 1 then none
    else (data.mapM base64Char).map sextetsToBytes

/-- Whether `b` is a UTF-8 continuation byte. -/
def isCont (b : Nat) : Bool := 0x80 ≤ b ∧ b ≤ 0xBF

/-- The WHATWG UTF-8 decoder with replacement (the default `TextDecoder`):
on an invalid lead byte one U+FFFD is emitted and decoding restarts at the
next byte; on an invalid continuation byte one U+FFFD is emitted and
decoding restarts at that byte; truncation at end of input emits one
U+FFFD.  `fuel` only makes the recursion structural; at least one byte is
consumed per step, so `bytes.length` fuel always suffices. -/
def utf8Go : Nat → List Nat → List Char
  | 0, _ => []
  | _ + 1, [] => []
  | fuel + 1, b :: rest =>
    if b ≤ 0x7F then Char.ofNat b :: utf8Go fuel rest
    else if 0xC2 ≤ b ∧ b ≤ 0xDF then
      match rest with
      | [] => [replacementChar]
      | b1 :: rest1 =>
        if isCont b1 then
          Char.ofNat ((b % 0x20) * 0x40 + b1 % 0x40) :: utf8Go fuel rest1
        else replacementChar :: utf8Go fuel rest
    else if 0xE0 ≤ b ∧ b ≤ 0xEF then
      match rest with
      | [] => [replacementChar]
      | b1 :: rest1 =>
        if (if b = 0xE0 then 0xA0 else 0x80) ≤ b1 ∧
            b1 ≤ (if b = 0xED then 0x9F else 0xBF) then
          match rest1 with
          | [] => [replacementChar]
          | b2 :: rest2 =>
            if isCont b2 then
              Char.ofNat ((b % 0x10) * 0x1000 + (b1 % 0x40) * 0x40 + b2 % 0x40)
                :: utf8Go fuel rest2
            else replacementChar :: utf8Go fuel rest1
        else replacementChar :: utf8Go fuel rest
    else if 0xF0 ≤ b ∧ b ≤ 0xF4 then
      match rest with
      | [] => [replacementChar]
      | b1 :: rest1 =>
        if (if b = 0xF0 then 0x90 else 0x80) ≤ b1 ∧
            b1 ≤ (if b = 0xF4 then 0x8F else 0xBF) then
          match rest1 with
          | [] => [replacementChar]
          | b2 :: rest2 =>
            if isCont b2 then
              match rest2 with
              | [] => [replacementChar]
              | b3 :: rest3 =>
                if isCont b3 then
                  Char.ofNat ((b % 0x08) * 0x40000 + (b1 % 0x40) * 0x1000 +
                    (b2 % 0x40) * 0x40 + b3 % 0x40) :: utf8Go fuel rest3
                else replacementChar :: utf8Go fuel rest2
            else replacementChar :: utf8Go fuel rest1
        else replacementChar :: utf8Go fuel rest
    else replacementChar :: utf8Go fuel rest

/-- `new TextDecoder().decode` on a byte list: strips a leading UTF-8
byte-order mark (the default `ignoreBOM: false`), then decodes with
replacement. -/
def utf8Decode (bytes : List Nat) : String :=
  match bytes with
  | 0xEF :: 0xBB :: 0xBF :: rest => String.mk (utf8Go rest.length rest)
  | _ => String.mk (utf8Go bytes.length bytes)

/-! ## Entities (`src/api/models.ts`)

The interfaces of `models.ts`, with `string` as `String`, `number` as `Nat`
for ids/indices and `Int` for scores and limits, unions with `null` as
`Option`, and `unknown` as `Unit`.  They are runtime-opaque payloads to the
client: it never reads a field other than the record keys below. -/

structure StarterFile where
  starterFileId : Nat
  filename : String
  viewable : Bool
  copyable : Bool
  downloadable : Bool
deriving Repr

structure Evaluation where
  evaluationId : Nat
  score : Int
  message : String
  evaluationTime : String
deriving Repr

structure Submission where
  submissionId : Nat
  name : String
  score : Int
  status : String
  submissionTime : String
  ipAddress : String
  evaluations : List Evaluation
deriving Repr

structure Exercise where
  assignedExerciseId : Nat
  indexInTaskList : Nat
  type : String
  name : String
  displayName : String
  description : String
  difficultyLevel : Nat
  maxScore : Int
  minScore : Int
  uploadLimit : Nat
  expectedFileFormat : String
  timeLimit : Option Unit
  starterFiles : List StarterFile
  taskImages : List Unit
  tags : List Unit
  score : Int
  submissions : List Submission
deriving Repr

inductive PostDeadlineHandling where
  | VIEW_ONLY
  | LOCKED
  | SUBMIT_WITH_NO_POINTS
deriving Repr, DecidableEq

structure Assignment where
  assignmentAssignedStudentId : Nat
  startTime : String
  endTime : String
  assignmentName : String
  assignmentDescription : String
  assignmentType : String
  maxScore : Int
  minScore : Int
  score : Option Int
  subjectName : String
  semesterName : String
  studentGroupName : Unit
  studentGroupMembers : Unit
  subjectInstanceId : Nat
  postDeadlineHandling : PostDeadlineHandling
deriving Repr

inductive ExerciseState where
  | NO_SUBMISSION
  | COMPLETED
  | MAX
  | COMPLETED_ZERO
deriving Repr, DecidableEq

structure ExerciseStatus where
  assignedExerciseId : Nat
  exerciseIndex : Nat
  exerciseState : ExerciseState
deriving Repr

/-- The payload of `fetchAssignment`: `{ assignmentDetails, exerciseStatuses }`. -/
structure AssignmentDetail where
  assignmentDetails : Assignment
  exerciseStatuses : List ExerciseStatus
deriving Repr

structure SubmissionStatus where
  state : String
  finished : Bool
  score : Int
  maxScore : Int
  evaluationId : Nat
deriving Repr

structure SubjectInstance where
  subjectInstanceId : Nat
  courseId : Nat
  subjectCode : String
  subjectName : String
  semesterName : String
  courseCode : String
  courseDay : String
  startTime : String
  endTime : String
  roomName : String
deriving Repr

/-- A `{ filename, content }` item as served by the reports and
uploaded-files endpoints (`content` base64 before decoding, text after). -/
structure FileEntry where
  filename : String
  content : String
deriving Repr, DecidableEq

/-- A decoded report entry: `item.content` is overwritten either with the
value `JSON.parse` produced or with the decoded text (part_001 lines
348-353) — the `string | ReportContent` union of the field, decided by
parse success. -/
inductive ReportContentValue where
  | text (s : String)
  | json (v : JsonVal)
deriving Repr

structure ReportEntry where
  filename : String
  content : ReportContentValue
deriving Repr

/-! ## Client state (`Biro3Client` fields, part_001 lines 24-51) -/

structure ClientState where
  username : Option String
  password : Option String
  accessToken : Option String
  refreshToken : Option String
  subjectInstances : Option (List (Nat × SubjectInstance))
  assignments : List (Nat × List Assignment)
  assignmentDetails : List (Nat × AssignmentDetail)
  exercises : List (Nat × Exercise)
  submissionStatuses : List (Nat × SubmissionStatus)
  reports : List (Nat × List ReportEntry)
  submissionFiles : List (Nat × List FileEntry)
deriving Repr

/-- The constructor (part_001 lines 38-51): no credentials, no tokens,
`subjectInstances` null, every other cache an empty record. -/
def initialClientState : ClientState where
  username := none
  password := none
  accessToken := none
  refreshToken := none
  subjectInstances := none
  assignments := []
  assignmentDetails := []
  exercises := []
  submissionStatuses := []
  reports := []
  submissionFiles := []

/-! ## The request pipeline (`get`, `postRaw`, `ApiError.fromResponse`)

A `Response` is embedded by the parts the client reads: `ok`, `status`,
`statusText`, the content-type header, the `Set-Cookie` headers and the
body text (`res.json()` is `jsonParse` of that text, throwing on failure).
The request side — URL, method, the fixed negotiation headers and the
conditional `Authorization`/`Cookie` headers — is not observed by any
claim and is left to the oracle that produces the `HttpResponse`. -/

structure HttpResponse where
  ok : Bool
  status : Nat
  statusText : String
  contentType : Option String
  setCookies : List String
  bodyText : String
deriving Repr

/-- JavaScript `String.prototype.split` with a one-character separator, on
the character list: `"".split(sep)` is `[""]`, and separators at the ends
produce empty groups, exactly as in JavaScript. -/
def splitListOn (sep : Char) : List Char → List (List Char)
  | [] => [[]]
  | c :: rest =>
    match splitListOn sep rest with
    | [] => [[]]
    | grp :: grps =>
      if c = sep then [] :: grp :: grps else (c :: grp) :: grps

/-- One `Set-Cookie` header split as `parseCookies` (part_001 lines 6-14)
splits it: `setCookie.split('=')[0]` is the name, and
`setCookie.substring(cookieName.length + 1).split(';')[0]` the value
(everything after the first `=` up to the first `;`). -/
def cookieEntry (setCookie : String) : String × String :=
  let cs := setCookie.toList
  let name := (splitListOn '=' cs).headD []
  (String.mk name,
    String.mk ((splitListOn ';' (cs.drop (name.length + 1))).headD []))

/-- `parseCookies` (part_001 lines 6-14) as the record writes it performs;
a later header for the same name overwrites (`recordLookup` reads it so). -/
def parseCookies (setCookies : List String) : List (String × String) :=
  setCookies.map cookieEntry

mutual

/-- JavaScript `String(x)` on a parsed JSON value, as `ApiError.fromResponse`
applies it to a `message` field.  Number formatting is approximated by the
stored mantissa/exponent pair (no claim reads a numeric message). -/
def jsToString : JsonVal → String
  | .null => "null"
  | .bool true => "true"
  | .bool false => "false"
  | .num m e => toString m ++ (if e = 0 then "" else "e" ++ toString e)
  | .str s => s
  | .arr items => String.intercalate "," (jsToStringList items)
  | .obj _ => "[object Object]"

/-- Array elements under `String(...)`: `null` joins as the empty string. -/
def jsToStringList : List JsonVal → List String
  | [] => []
  | v :: rest =>
    (match v with
     | .null => ""
     | _ => jsToString v) :: jsToStringList rest

end

/-- The `message` extraction of `ApiError.fromResponse`
(`src/api/ApiError.ts`): only a non-null object body with a `message` key
yields one (`d && typeof d === 'object' && 'message' in d`). -/
def jsonMessageField : JsonVal → Option String
  | .obj fields => (recordLookup fields "message").map jsToString
  | _ => none

/-- `ApiError.fromResponse` (`src/api/ApiError.ts`): the thrown error for a
non-2xx response.  With content-type `application/json` the body is parsed
(a parse failure is caught and leaves the message null) and a `message`
field is taken; otherwise the body text is the message.  A truthy message
yields `HTTP <status>: <message>`, else a truthy statusText yields
`HTTP <status>: <statusText>`, else `HTTP <status>` alone. -/
def apiErrorFromResponse (res : HttpResponse) : Err :=
  .api res.status
    (match
      (if res.contentType = some "application/json" then
        match jsonParse res.bodyText with
        | some d => jsonMessageField d
        | none => none
      else some res.bodyText) with
     | some m =>
       if m ≠ "" then "HTTP " ++ toString res.status ++ ": " ++ m
       else if res.statusText ≠ "" then
         "HTTP " ++ toString res.status ++ ": " ++ res.statusText
       else "HTTP " ++ toString res.status
     | none =>
       if res.statusText ≠ "" then
         "HTTP " ++ toString res.status ++ ": " ++ res.statusText
       else "HTTP " ++ toString res.status)

/-- `Biro3Client.get` (part_001 lines 113-146), from the point the response
arrives: a non-ok response makes it throw `ApiError.fromResponse(res)` —
note that this happens *before* the refresh-token line — and an ok response
first overwrites `this.refreshToken` with the `refresh-token` cookie when
one is present (`?? this.refreshToken` keeps the old value otherwise,
line 143) and then returns the response. -/
def Biro3Client.get (st : ClientState) (server : HttpResponse) :
    ClientState × Except Err HttpResponse :=
  if server.ok = false then
    (st, .error (apiErrorFromResponse server))
  else
    ({ st with refreshToken :=
        match recordLookup (parseCookies server.setCookies) "refresh-token" with
        | some v => some v
        | none => st.refreshToken },
      .ok server)

/-- `Biro3Client.postRaw` (part_001 lines 152-190): the response handling
duplicates `get` line for line (throw on non-ok at line 184, then the
refresh-token overwrite at line 187). -/
def Biro3Client.postRaw (st : ClientState) (server : HttpResponse) :
    ClientState × Except Err HttpResponse :=
  if server.ok = false then
    (st, .error (apiErrorFromResponse server))
  else
    ({ st with refreshToken :=
        match recordLookup (parseCookies server.setCookies) "refresh-token" with
        | some v => some v
        | none => st.refreshToken },
      .ok server)

/-! ## Authentication (part_001 lines 196-249) -/

/-- The unchecked assignment `this.accessToken = d['accessToken']` into a
`string | null` field: a string value is stored, an absent field stores
`undefined` (falsy, embedded as `none`); a non-string truthy value is not
representable in the embedding and no claim exercises one. -/
def asStringField : Option JsonVal → Option String
  | some (.str s) => some s
  | _ => none

/-- `Biro3Client.fetchAccessToken` (part_001 lines 224-238): clears both
tokens, posts `{username, password}` to the login endpoint (`server` is the
response the endpoint gives), stores the credentials only once the post
succeeded, then reads `accessToken` from the body.  The post goes through
the `postRaw` pipeline, so an ok response can also set the refresh-token
cookie. -/
def fetchAccessToken (st : ClientState) (username password : String)
    (server : HttpResponse) : ClientState × Except Err Unit :=
  match Biro3Client.postRaw { st with refreshToken := none, accessToken := none } server with
  | (st1, .error e) => (st1, .error e)
  | (st1, .ok res) =>
    match jsonParse res.bodyText with
    | none =>
      ({ st1 with username := some username, password := some password },
        .error (.jsError "SyntaxError"))
    | some d =>
      ({ st1 with
          username := some username
          password := some password
          accessToken := asStringField (objGet d "accessToken") }, .ok ())

/-- `Biro3Client.refreshAccessToken` (part_001 lines 240-249): clears the
access token, posts to the refresh endpoint, reads `accessToken` from the
body. -/
def refreshAccessToken (st : ClientState) (server : HttpResponse) :
    ClientState × Except Err Unit :=
  match Biro3Client.postRaw { st with accessToken := none } server with
  | (st1, .error e) => (st1, .error e)
  | (st1, .ok res) =>
    match jsonParse res.bodyText with
    | none => (st1, .error (.jsError "SyntaxError"))
    | some d =>
      ({ st1 with accessToken := asStringField (objGet d "accessToken") },
        .ok ())

/-- `Biro3Client.withReauth` in full (part_001 lines 55-105): the prelude
plus the retry loop.  With truthy credentials and a truthy access token the
prelude does nothing and the loop runs.  With truthy credentials but no
access token, line 63 first calls `this.fetchAccessToken` outside any
`try` (`preLoginOutcome`); its failure propagates before the wrapped
operation ever runs, its success leads into the loop.  Without truthy
credentials line 58 enters the interactive `login()` flow — `vscode` input
boxes looping until the user succeeds or cancels — which is outside this
embedding: that branch is `none`.  No claim concerns it. -/
def withReauth {α : Type} (st : ClientState) (outcomes : Nat → Except Err α)
    (refreshOutcome loginOutcome preLoginOutcome : Except Err Unit) :
    Option (ReauthTrace α) :=
  if truthyOpt st.username && truthyOpt st.password then
    if truthyOpt st.accessToken then
      some (withReauthLoop st.username st.password outcomes refreshOutcome
        loginOutcome)
    else
      match preLoginOutcome with
      | .error e =>
        some ⟨.error e, 0, 0, 1,
          [(st.username.getD "", st.password.getD "")], [.warnNoAccessToken]⟩
      | .ok _ =>
        match withReauthLoop st.username st.password outcomes refreshOutcome
          loginOutcome with
        | tr =>
          some ⟨tr.result, tr.fetchCalls, tr.refreshCalls, tr.loginCalls + 1,
            (st.username.getD "", st.password.getD "") :: tr.loginArgs,
            .warnNoAccessToken :: tr.logs⟩
  else none

/-! ## The entity caches (part_001 lines 253-295 and 329-371)

Every fetcher goes through `getJson`, i.e. the `get` pipeline plus
`res.json()`, and the TypeScript casts the parsed value to the entity type
without validation; the oracle therefore supplies the typed value directly
(`Except.error` standing for anything thrown on the way: a transport
failure, an `ApiError`, a JSON `SyntaxError`).  `networkCalls` counts the
underlying requests issued. -/

structure FetchResult (β : Type) where
  state : ClientState
  result : Except Err β
  networkCalls : Nat
deriving Repr

/-- `Biro3Client.fetchSubjectInstances` (part_001 lines 261-265): fetches
the full list, stores it as a record keyed by `subjectInstanceId`, and
returns the *list*. -/
def fetchSubjectInstances (st : ClientState)
    (server : Except Err (List SubjectInstance)) :
    FetchResult (List SubjectInstance) :=
  match server with
  | .error e => ⟨st, .error e, 1⟩
  | .ok v =>
    ⟨{ st with subjectInstances := some (listToRecord v (fun x => x.subjectInstanceId)) },
      .ok v, 1⟩

/-- `Biro3Client.getSubjectInstance` (part_001 lines 253-255):
`this.subjectInstances?.[instanceId] ?? (await this.fetchSubjectInstances())[instanceId]`.
On a hit the cached entity is returned without a request.  On a miss the
*array* returned by `fetchSubjectInstances` is indexed by `instanceId` —
an array position, not the `subjectInstanceId` key the cache uses — so the
call yields `undefined` (`none`) unless the id happens to equal a position. -/
def getSubjectInstance (st : ClientState) (instanceId : Nat)
    (server : Except Err (List SubjectInstance)) :
    FetchResult (Option SubjectInstance) :=
  match
    (match st.subjectInstances with
     | some cache => recordLookup cache instanceId
     | none => none) with
  | some v => ⟨st, .ok (some v), 0⟩
  | none =>
    match fetchSubjectInstances st server with
    | r =>
      match r.result with
      | .error e => ⟨r.state, .error e, r.networkCalls⟩
      | .ok v => ⟨r.state, .ok v[instanceId]?, r.networkCalls⟩

/-- `Biro3Client.fetchExercise` (part_001 lines 291-295): always requests,
overwrites the cache entry, returns the fresh value. -/
def fetchExercise (st : ClientState) (exerciseId : Nat)
    (server : Except Err Exercise) : FetchResult Exercise :=
  match server with
  | .error e => ⟨st, .error e, 1⟩
  | .ok v =>
    ⟨{ st with exercises := recordSet st.exercises exerciseId v }, .ok v, 1⟩

/-- `Biro3Client.getExercise` (part_001 lines 287-289):
`this.exercises[exerciseId] ?? await this.fetchExercise(exerciseId)`. -/
def getExercise (st : ClientState) (exerciseId : Nat)
    (server : Except Err Exercise) : FetchResult Exercise :=
  match recordLookup st.exercises exerciseId with
  | some v => ⟨st, .ok v, 0⟩
  | none => fetchExercise st exerciseId server

/-! ## Report and uploaded-file decoding (part_001 lines 343-371) -/

/-- The decoding of one report item (part_001 lines 347-353).  `atob` runs
*outside* the `try`, so its `InvalidCharacterError` on malformed base64
escapes; only `JSON.parse` is inside it, and its failure stores the decoded
text instead of the parsed value. -/
def decodeReportItem (item : FileEntry) : Except Err ReportEntry :=
  match atob item.content with
  | none => .error (.jsError "InvalidCharacterError")
  | some bytes =>
    match jsonParse (utf8Decode bytes) with
    | some d => .ok ⟨item.filename, .json d⟩
    | none => .ok ⟨item.filename, .text (utf8Decode bytes)⟩

/-- The decoding of one uploaded-file item (part_001 line 367): base64 then
UTF-8, with no `try` at all. -/
def decodeFileItem (item : FileEntry) : Except Err FileEntry :=
  match atob item.content with
  | none => .error (.jsError "InvalidCharacterError")
  | some bytes => .ok ⟨item.filename, utf8Decode bytes⟩

/-- The `for (const item of v)` loops over the fetched items: items are
decoded in order and the first thrown error aborts the whole fetch. -/
def mapExceptList {β γ : Type} (f : β → Except Err γ) :
    List β → Except Err (List γ)
  | [] => .ok []
  | x :: xs =>
    match f x with
    | .error e => .error e
    | .ok y => (mapExceptList f xs).map (fun ys => y :: ys)

/-- `Biro3Client.fetchReports` (part_001 lines 343-357): fetches the items,
decodes each in place, caches the decoded list under `evaluationId` and
returns it.  An error thrown while decoding aborts before the cache write. -/
def fetchReports (st : ClientState) (evaluationId : Nat)
    (server : Except Err (List FileEntry)) :
    FetchResult (List ReportEntry) :=
  match server with
  | .error e => ⟨st, .error e, 1⟩
  | .ok v =>
    match mapExceptList decodeReportItem v with
    | .error e => ⟨st, .error e, 1⟩
    | .ok items =>
      ⟨{ st with reports := recordSet st.reports evaluationId items },
        .ok items, 1⟩

/-- `Biro3Client.fetchSubmissionFiles` (part_001 lines 363-371): the same
shape for uploaded files, with no JSON step. -/
def fetchSubmissionFiles (st : ClientState) (submissionId : Nat)
    (server : Except Err (List FileEntry)) : FetchResult (List FileEntry) :=
  match server with
  | .error e => ⟨st, .error e, 1⟩
  | .ok v =>
    match mapExceptList decodeFileItem v with
    | .error e => ⟨st, .error e, 1⟩
    | .ok items =>
      ⟨{ st with submissionFiles := recordSet st.submissionFiles submissionId items },
        .ok items, 1⟩

/-! ## File submission (part_001 lines 297-327) -/

def hexDigitLower (n : Nat) : String :=
  String.singleton (if n < 10 then Char.ofNat (48 + n) else Char.ofNat (87 + n))

/-- `JSON.stringify` on one character of a string. -/
def jsonEscapeChar (c : Char) : String :=
  if c = '"' then "\\\""
  else if c = '\\' then "\\\\"
  else if c = '\x08' then "\\b"
  else if c = '\x0c' then "\\f"
  else if c = '\n' then "\\n"
  else if c = '\r' then "\\r"
  else if c = '\t' then "\\t"
  else if c.toNat < 0x20 then
    "\\u00" ++ hexDigitLower (c.toNat / 16) ++ hexDigitLower (c.toNat % 16)
  else String.singleton c

/-- `JSON.stringify(filename)`: the quoted, escaped string literal used for
the `filename=` parameter (part_001 line 316). -/
def jsonStringifyString (s : String) : String :=
  "\"" ++ String.join (s.toList.map jsonEscapeChar) ++ "\""

def crlf : String := "\r\n"

/-- The fixed multipart boundary (part_001 line 305). -/
def boundary : String :=
  "----geckoformboundary273ffe305e9d16e6289195cb1b17216e"

/-- `builder.appendLine(line)`: `this.value += line + "\r\n"`. -/
def appendLine (value line : String) : String := value ++ (line ++ crlf)

/-- The multipart body `Biro3Client.submitFile` builds (part_001 lines
298-320), as the exact sequence of `appendLine` calls. -/
def submitFileBody (filename filecontent : String) : String :=
  appendLine (appendLine (appendLine (appendLine (appendLine (appendLine
    (appendLine (appendLine (appendLine (appendLine (appendLine (appendLine
      (appendLine (appendLine ""
        ("--" ++ boundary))
        "Content-Disposition: form-data; name=\"submissionName\"")
        "")
        "")
        ("--" ++ boundary))
        "Content-Disposition: form-data; name=\"post-deadline-submission-confirmed\"")
        "")
        "false")
        ("--" ++ boundary))
        ("Content-Disposition: form-data; name=\"file\"; filename=" ++
          jsonStringifyString filename))
        "Content-Type: application/octet-stream")
        "")
        filecontent)
        ("--" ++ boundary ++ "--")

/-! ## Concrete inputs and specification-side definitions

The remaining definitions are not part of the embedding: the `spec...`
definitions restate behaviour in the specification's words, to be compared
with the embedded code, and the rest are concrete clients, responses and
oracles used by closed instances of the theorems. -/

/-- The `error instanceof ApiError && error.status === 401` test of the
retry loop (part_001 lines 71-72), as one predicate on a thrown error. -/
def is401 : Err → Bool
  | .api s _ => s == 401
  | .jsError _ => false

/-- A client in the authenticated steady state: stored credentials and a
(possibly stale) access token, all truthy. -/
def authedClient : ClientState :=
  { initialClientState with
      username := some "user"
      password := some "pw"
      accessToken := some "tok" }

/-- A wrapped operation that throws a distinct 401 `ApiError` on each of
its first three invocations. -/
def all401Outcomes : Nat → Except Err Unit :=
  fun n =>
    match n with
    | 0 => .error (.api 401 "first")
    | 1 => .error (.api 401 "second")
    | _ => .error (.api 401 "third")

/-- A wrapped operation that always throws a 500 `ApiError`. -/
def server500Outcomes : Nat → Except Err Unit :=
  fun _ => .error (.api 500 "Internal Server Error")

/-- A wrapped operation that always throws a transport error (a `fetch`
rejection, not an `ApiError`). -/
def transportFailOutcomes : Nat → Except Err Unit :=
  fun _ => .error (.jsError "NetworkError when attempting to fetch resource.")

/-- A wrapped operation that throws a 401 once and then succeeds. -/
def once401Outcomes : Nat → Except Err Nat :=
  fun n =>
    match n with
    | 0 => .error (.api 401 "Unauthorized")
    | _ => .ok 42

/-- A client holding a refresh token from an earlier response. -/
def staleTokenClient : ClientState :=
  { initialClientState with refreshToken := some "old" }

/-- A 401 response that carries a rotated refresh-token cookie. -/
def rotating401Response : HttpResponse where
  ok := false
  status := 401
  statusText := "Unauthorized"
  contentType := none
  setCookies := ["refresh-token=new; Path=/; HttpOnly"]
  bodyText := ""

def sampleSubjectInstance : SubjectInstance where
  subjectInstanceId := 5
  courseId := 1
  subjectCode := "IB999"
  subjectName := "Programming"
  semesterName := "2024-25-1"
  courseCode := "c01"
  courseDay := "Monday"
  startTime := "08:00"
  endTime := "10:00"
  roomName := "A1"

def sampleExercise : Exercise where
  assignedExerciseId := 7
  indexInTaskList := 0
  type := "file"
  name := "ex1"
  displayName := "Exercise 1"
  description := ""
  difficultyLevel := 1
  maxScore := 10
  minScore := 0
  uploadLimit := 5
  expectedFileFormat := "py"
  timeLimit := none
  starterFiles := []
  taskImages := []
  tags := []
  score := 0
  submissions := []

/-- A client whose exercise cache holds `sampleExercise` under id 7. -/
def exerciseCachedClient : ClientState :=
  { initialClientState with exercises := recordSet [] 7 sampleExercise }

/-- The specification's refresh-token rotation, as amended: on an ok
response the cookie value overwrites the stored token when present and the
stored token is kept otherwise; on a non-2xx response the stored token is
kept unchanged (the error is thrown before the extraction). -/
def specRefreshTokenAfterResponse (st : ClientState) (res : HttpResponse) :
    Option String :=
  if res.ok then
    match recordLookup (parseCookies res.setCookies) "refresh-token" with
    | some v => some v
    | none => st.refreshToken
  else st.refreshToken

/-- The specification's decoded report entry: base64 then UTF-8, then the
parsed JSON when the text parses and the raw text otherwise. -/
def specDecodedReport (it : FileEntry) : ReportEntry :=
  match jsonParse (utf8Decode ((atob it.content).getD [])) with
  | some d => ⟨it.filename, .json d⟩
  | none => ⟨it.filename, .text (utf8Decode ((atob it.content).getD []))⟩

/-- The specification's decoded uploaded-file entry: base64 then UTF-8. -/
def specDecodedFile (it : FileEntry) : FileEntry :=
  ⟨it.filename, utf8Decode ((atob it.content).getD [])⟩

/-- Two well-formed report payloads: valid base64 of JSON text and valid
base64 of plain text. -/
def mixedReportItems : List FileEntry :=
  [⟨"res.json", "eyJyZXBvcnRfdHlwZSI6IlgiLCJ0ZXN0cyI6W119"⟩,
   ⟨"out.txt", "aGVsbG8="⟩]

def uploadedFileItems : List FileEntry := [⟨"main.py", "aGVsbG8="⟩]

/-- A payload whose content is not base64 (`%` is outside the alphabet). -/
def badBase64Items : List FileEntry := [⟨"report.json", "%%%"⟩]

/-- base64 of the text `hello`. -/
def helloBase64 : String := "aGVsbG8="

/-- base64 of the JSON text with `report_type` `X` and an empty `tests`
array. -/
def structuredReportBase64 : String := "eyJyZXBvcnRfdHlwZSI6IlgiLCJ0ZXN0cyI6W119"

/-- The specification's first multipart part: an empty `submissionName`
field, every line CRLF-terminated. -/
def specSubmissionNamePart : String :=
  "--" ++ boundary ++ crlf ++
  "Content-Disposition: form-data; name=\"submissionName\"" ++ crlf ++
  crlf ++
  "" ++ crlf

/-- The specification's second part: the post-deadline confirmation field
with the text `false`. -/
def specPostDeadlinePart : String :=
  "--" ++ boundary ++ crlf ++
  "Content-Disposition: form-data; name=\"post-deadline-submission-confirmed\"" ++ crlf ++
  crlf ++
  "false" ++ crlf

/-- The specification's third part: the file field with the given filename
and the fixed `application/octet-stream` content type. -/
def specFilePart (filename filecontent : String) : String :=
  "--" ++ boundary ++ crlf ++
  "Content-Disposition: form-data; name=\"file\"; filename=" ++
    jsonStringifyString filename ++ crlf ++
  "Content-Type: application/octet-stream" ++ crlf ++
  crlf ++
  filecontent ++ crlf

/-- The specification's whole multipart body: exactly the three parts in
order, then the closing delimiter, CRLF-terminated. -/
def specMultipartBody (filename filecontent : String) : String :=
  specSubmissionNamePart ++ specPostDeadlinePart ++
    specFilePart filename filecontent ++ "--" ++ boundary ++ "--" ++ crlf

/-! ## Theorems -/

/-- The loop result does not depend on the fuel budget: any budget at least
the 2 of `withReauthLoop` produces the same trace from `retries = 0`, so it
is the `retries` counter, not the fuel, that stops the loop. -/
theorem withReauthGo_fuel_irrelevant {α : Type} (u p : Option String)
    (o : Nat → Except Err α) (ro lo : Except Err Unit) (k c rc lc : Nat)
    (la : List (String × String)) (lg : List LogEvent) :
    withReauthGo u p o ro lo (k + 2) 0 c rc lc la lg =
    withReauthGo u p o ro lo 2 0 c rc lc la lg := by
  simp only [withReauthGo]

/-- From `retries` at least 2, the `switch` falls to `default` and the loop
body runs exactly once more (one fetch, then throw), for every fuel
budget. -/
theorem withReauthGo_retries_ge2_fetchCalls {α : Type} (u p : Option String)
    (o : Nat → Except Err α) (ro lo : Except Err Unit)
    (fuel retries c rc lc : Nat) (la : List (String × String))
    (lg : List LogEvent) (hr : 2 ≤ retries) :
    (withReauthGo u p o ro lo fuel retries c rc lc la lg).fetchCalls = c + 1 := by
  obtain ⟨r, rfl⟩ : ∃ r, retries = r + 2 := ⟨retries - 2, by omega⟩
  rw [withReauthGo.eq_def]
  repeat' split
  all_goals try rfl
  all_goals omega

/-- From `retries = 1` the loop runs at most two more iterations, for every
fuel budget. -/
theorem withReauthGo_retries1_fetchCalls_le {α : Type} (u p : Option String)
    (o : Nat → Except Err α) (ro lo : Except Err Unit) (fuel c rc lc : Nat)
    (la : List (String × String)) (lg : List LogEvent) :
    (withReauthGo u p o ro lo fuel 1 c rc lc la lg).fetchCalls ≤ c + 2 := by
  rw [withReauthGo.eq_def]
  repeat' split
  all_goals try (rw [withReauthGo_retries_ge2_fetchCalls] <;> omega)
  all_goals try dsimp only
  all_goals omega

/-- From its entry at `retries = 0` the loop runs at most three iterations,
for every fuel budget: the counter strictly increases on every intercepted
401 and the loop throws once it passes 1. -/
theorem withReauthGo_retries0_fetchCalls_le {α : Type} (u p : Option String)
    (o : Nat → Except Err α) (ro lo : Except Err Unit) (fuel c rc lc : Nat)
    (la : List (String × String)) (lg : List LogEvent) :
    (withReauthGo u p o ro lo fuel 0 c rc lc la lg).fetchCalls ≤ c + 3 := by
  rw [withReauthGo.eq_def]
  repeat' split
  all_goals try (exact le_trans (withReauthGo_retries1_fetchCalls_le ..) (by omega))
  all_goals try dsimp only
  all_goals omega

/-- C9: for every behaviour of the wrapped operation and of the two
recovery calls, `withReauth` terminates with at most 3 invocations of the
wrapped operation (the embedding is a total function, and the count it
returns never exceeds 3 in any state — the retry counter strictly
increases on each intercepted 401 and the loop rethrows once it exceeds 1,
as the `withReauthGo_retries*` lemmas state for every fuel budget). -/
theorem withReauth_at_most_three_calls {α : Type} (st : ClientState)
    (outcomes : Nat → Except Err α) (ro lo pre : Except Err Unit) :
    ((withReauth st outcomes ro lo pre).map ReauthTrace.fetchCalls).getD 0 ≤ 3 := by
  rw [withReauth.eq_def]
  split
  · split
    · simpa [withReauthLoop] using
        withReauthGo_retries0_fetchCalls_le st.username st.password outcomes
          ro lo 2 0 0 0 [] []
    · split
      · simp
      · simpa [withReauthLoop] using
          withReauthGo_retries0_fetchCalls_le st.username st.password outcomes
            ro lo 2 0 0 0 [] []
  · simp

/-- C1 (amended): in the authenticated state, a wrapped operation that
throws a 401 `ApiError` on the initial attempt, on the refresh retry and on
the login retry makes `withReauth` perform exactly 2 recovery attempts —
one `refreshAccessToken` call, then one `fetchAccessToken` call with the
stored username and password — invoke the operation 3 times in total, and
surface the 401 error thrown by the final (third) invocation.  That error
coincides with the original one only when the two are equal as errors; the
loop rethrows the error of the current iteration, not the first. -/
theorem withReauth_all_401_surfaces_last {α : Type} (st : ClientState)
    (u p tok : String) (hu : u ≠ "") (hp : p ≠ "") (ht : tok ≠ "")
    (outcomes : Nat → Except Err α) (ro lo pre : Except Err Unit)
    (m0 m1 m2 : String)
    (h0 : outcomes 0 = .error (.api 401 m0))
    (h1 : outcomes 1 = .error (.api 401 m1))
    (h2 : outcomes 2 = .error (.api 401 m2)) :
    (withReauth { st with username := some u, password := some p, accessToken := some tok }
        outcomes ro lo pre).map ReauthTrace.fetchCalls = some 3 ∧
    (withReauth { st with username := some u, password := some p, accessToken := some tok }
        outcomes ro lo pre).map ReauthTrace.refreshCalls = some 1 ∧
    (withReauth { st with username := some u, password := some p, accessToken := some tok }
        outcomes ro lo pre).map ReauthTrace.loginCalls = some 1 ∧
    (withReauth { st with username := some u, password := some p, accessToken := some tok }
        outcomes ro lo pre).map ReauthTrace.loginArgs = some [(u, p)] ∧
    (withReauth { st with username := some u, password := some p, accessToken := some tok }
        outcomes ro lo pre).map ReauthTrace.result = some (.error (.api 401 m2)) := by
  simp [withReauth, truthyOpt, hu, hp, ht, withReauthLoop, withReauthGo, h0, h1, h2]

/-- C1, witness: the triple-401 scenario at concrete inputs. -/
theorem withReauth_all_401_surfaces_last_witness :
    (withReauth { initialClientState with username := some "user", password := some "pw", accessToken := some "tok" }
        all401Outcomes (.ok ()) (.ok ()) (.ok ())).map ReauthTrace.fetchCalls = some 3 ∧
    (withReauth { initialClientState with username := some "user", password := some "pw", accessToken := some "tok" }
        all401Outcomes (.ok ()) (.ok ()) (.ok ())).map ReauthTrace.refreshCalls = some 1 ∧
    (withReauth { initialClientState with username := some "user", password := some "pw", accessToken := some "tok" }
        all401Outcomes (.ok ()) (.ok ()) (.ok ())).map ReauthTrace.loginCalls = some 1 ∧
    (withReauth { initialClientState with username := some "user", password := some "pw", accessToken := some "tok" }
        all401Outcomes (.ok ()) (.ok ()) (.ok ())).map ReauthTrace.loginArgs = some [("user", "pw")] ∧
    (withReauth { initialClientState with username := some "user", password := some "pw", accessToken := some "tok" }
        all401Outcomes (.ok ()) (.ok ()) (.ok ())).map ReauthTrace.result = some (.error (.api 401 "third")) :=
  withReauth_all_401_surfaces_last initialClientState "user" "pw" "tok"
    (by decide) (by decide) (by decide) all401Outcomes (.ok ()) (.ok ()) (.ok ())
    "first" "second" "third" rfl rfl rfl

/-- C1, counterexample to the claim as stated: with three distinct 401
errors the surfaced error is the third invocation's, not the original
first one — `withReauth` does not surface the original 401 error. -/
theorem withReauth_all_401_original_error_cex :
    (withReauth authedClient all401Outcomes (.ok ()) (.ok ()) (.ok ())).map
      ReauthTrace.result = some (.error (.api 401 "third")) ∧
    (withReauth authedClient all401Outcomes (.ok ()) (.ok ()) (.ok ())).map
      ReauthTrace.result ≠ some (.error (.api 401 "first")) := by
  constructor
  · simp [withReauth, authedClient, initialClientState, truthyOpt,
      withReauthLoop, withReauthGo, all401Outcomes]
  · simp [withReauth, authedClient, initialClientState, truthyOpt,
      withReauthLoop, withReauthGo, all401Outcomes]

/-- C2 (amended): in the authenticated state, a wrapped operation that
throws an error that is not a 401 `ApiError` makes `withReauth` perform
zero recovery attempts (no `refreshAccessToken` and no `fetchAccessToken`
call), invoke the operation exactly once, and propagate that error; a
non-401 `ApiError` is logged (`HTTP <status>` warning) before the rethrow,
while a non-`ApiError` (transport) error is rethrown without any log from
`withReauth`. -/
theorem withReauth_non401_immediate {α : Type} (st : ClientState)
    (u p tok : String) (hu : u ≠ "") (hp : p ≠ "") (ht : tok ≠ "")
    (outcomes : Nat → Except Err α) (ro lo pre : Except Err Unit)
    (e : Err) (h0 : outcomes 0 = .error e) (hne : is401 e = false) :
    (withReauth { st with username := some u, password := some p, accessToken := some tok }
        outcomes ro lo pre).map ReauthTrace.fetchCalls = some 1 ∧
    (withReauth { st with username := some u, password := some p, accessToken := some tok }
        outcomes ro lo pre).map ReauthTrace.refreshCalls = some 0 ∧
    (withReauth { st with username := some u, password := some p, accessToken := some tok }
        outcomes ro lo pre).map ReauthTrace.loginCalls = some 0 ∧
    (withReauth { st with username := some u, password := some p, accessToken := some tok }
        outcomes ro lo pre).map ReauthTrace.result = some (.error e) ∧
    (withReauth { st with username := some u, password := some p, accessToken := some tok }
        outcomes ro lo pre).map ReauthTrace.logs =
      some (match e with
            | .api s _ => [LogEvent.warnHttp s]
            | .jsError _ => []) := by
  cases e with
  | api s msg =>
    have hs : s ≠ 401 := by
      simpa [is401] using hne
    simp [withReauth, truthyOpt, hu, hp, ht, withReauthLoop, withReauthGo, h0, hs]
  | jsError msg =>
    simp [withReauth, truthyOpt, hu, hp, ht, withReauthLoop, withReauthGo, h0]

/-- C2, witness: a 500 `ApiError` at concrete inputs, propagated after one
invocation, zero recovery attempts, with its warning logged. -/
theorem withReauth_non401_immediate_witness :
    (withReauth { initialClientState with username := some "user", password := some "pw", accessToken := some "tok" }
        server500Outcomes (.ok ()) (.ok ()) (.ok ())).map ReauthTrace.fetchCalls = some 1 ∧
    (withReauth { initialClientState with username := some "user", password := some "pw", accessToken := some "tok" }
        server500Outcomes (.ok ()) (.ok ()) (.ok ())).map ReauthTrace.refreshCalls = some 0 ∧
    (withReauth { initialClientState with username := some "user", password := some "pw", accessToken := some "tok" }
        server500Outcomes (.ok ()) (.ok ()) (.ok ())).map ReauthTrace.loginCalls = some 0 ∧
    (withReauth { initialClientState with username := some "user", password := some "pw", accessToken := some "tok" }
        server500Outcomes (.ok ()) (.ok ()) (.ok ())).map ReauthTrace.result =
      some (.error (.api 500 "Internal Server Error")) ∧
    (withReauth { initialClientState with username := some "user", password := some "pw", accessToken := some "tok" }
        server500Outcomes (.ok ()) (.ok ()) (.ok ())).map ReauthTrace.logs =
      some [LogEvent.warnHttp 500] :=
  withReauth_non401_immediate initialClientState "user" "pw" "tok"
    (by decide) (by decide) (by decide) server500Outcomes (.ok ()) (.ok ()) (.ok ())
    (.api 500 "Internal Server Error") rfl rfl

/-- C2, counterexample to the claim as stated: a transport error is
propagated after exactly one invocation, but `withReauth` emits no log
entry at all for it — the error is not logged before propagation. -/
theorem withReauth_transport_error_unlogged_cex :
    (withReauth authedClient transportFailOutcomes (.ok ()) (.ok ()) (.ok ())).map
      ReauthTrace.result =
      some (.error (.jsError "NetworkError when attempting to fetch resource.")) ∧
    (withReauth authedClient transportFailOutcomes (.ok ()) (.ok ()) (.ok ())).map
      ReauthTrace.logs = some [] := by
  constructor
  · simp [withReauth, authedClient, initialClientState, truthyOpt,
      withReauthLoop, withReauthGo, transportFailOutcomes]
  · simp [withReauth, authedClient, initialClientState, truthyOpt,
      withReauthLoop, withReauthGo, transportFailOutcomes]

/-- C3: in the authenticated state, a wrapped operation that throws a 401
`ApiError` exactly once and succeeds on the next invocation makes
`withReauth` perform exactly one recovery attempt — one
`refreshAccessToken` call and no `fetchAccessToken` call — and return the
second invocation's result without surfacing an error. -/
theorem withReauth_401_once_then_success {α : Type} (st : ClientState)
    (u p tok : String) (hu : u ≠ "") (hp : p ≠ "") (ht : tok ≠ "")
    (outcomes : Nat → Except Err α) (ro lo pre : Except Err Unit)
    (m : String) (v : α)
    (h0 : outcomes 0 = .error (.api 401 m)) (h1 : outcomes 1 = .ok v) :
    (withReauth { st with username := some u, password := some p, accessToken := some tok }
        outcomes ro lo pre).map ReauthTrace.result = some (.ok v) ∧
    (withReauth { st with username := some u, password := some p, accessToken := some tok }
        outcomes ro lo pre).map ReauthTrace.fetchCalls = some 2 ∧
    (withReauth { st with username := some u, password := some p, accessToken := some tok }
        outcomes ro lo pre).map ReauthTrace.refreshCalls = some 1 ∧
    (withReauth { st with username := some u, password := some p, accessToken := some tok }
        outcomes ro lo pre).map ReauthTrace.loginCalls = some 0 := by
  simp [withReauth, truthyOpt, hu, hp, ht, withReauthLoop, withReauthGo, h0, h1]

/-- C3, witness: one 401 then success, at concrete inputs. -/
theorem withReauth_401_once_then_success_witness :
    (withReauth { initialClientState with username := some "user", password := some "pw", accessToken := some "tok" }
        once401Outcomes (.ok ()) (.ok ()) (.ok ())).map ReauthTrace.result = some (.ok 42) ∧
    (withReauth { initialClientState with username := some "user", password := some "pw", accessToken := some "tok" }
        once401Outcomes (.ok ()) (.ok ()) (.ok ())).map ReauthTrace.fetchCalls = some 2 ∧
    (withReauth { initialClientState with username := some "user", password := some "pw", accessToken := some "tok" }
        once401Outcomes (.ok ()) (.ok ()) (.ok ())).map ReauthTrace.refreshCalls = some 1 ∧
    (withReauth { initialClientState with username := some "user", password := some "pw", accessToken := some "tok" }
        once401Outcomes (.ok ()) (.ok ()) (.ok ())).map ReauthTrace.loginCalls = some 0 :=
  withReauth_401_once_then_success initialClientState "user" "pw" "tok"
    (by decide) (by decide) (by decide) once401Outcomes (.ok ()) (.ok ()) (.ok ())
    "Unauthorized" 42 rfl rfl

/-- C10: `fetchAccessToken` clears both stored tokens to null before
issuing the login request.  When the request fails both tokens are still
null and the stored username and password are unchanged from before the
call; the supplied username and password are stored exactly when the login
request succeeds (and on success the refresh token is whatever cookie the
login response set, the access token whatever `accessToken` string its body
carries). -/
theorem fetchAccessToken_credentials_and_tokens (st : ClientState)
    (u p : String) (res : HttpResponse) :
    (fetchAccessToken st u p res).1.username =
      (if res.ok then some u else st.username) ∧
    (fetchAccessToken st u p res).1.password =
      (if res.ok then some p else st.password) ∧
    (fetchAccessToken st u p res).1.accessToken =
      (if res.ok then
        (match jsonParse res.bodyText with
         | some d => asStringField (objGet d "accessToken")
         | none => none)
       else none) ∧
    (fetchAccessToken st u p res).1.refreshToken =
      (if res.ok then recordLookup (parseCookies res.setCookies) "refresh-token"
       else none) := by
  by_cases hok : res.ok
  · simp only [fetchAccessToken, Biro3Client.postRaw, hok, if_true,
      Bool.true_eq_false, if_neg, Bool.false_ne_true, not_false_iff]
    cases hj : jsonParse res.bodyText <;>
      cases hl : recordLookup (parseCookies res.setCookies) "refresh-token" <;>
        simp [hj, hl]
  · have hok' : res.ok = false := by simpa using hok
    simp [fetchAccessToken, Biro3Client.postRaw, hok']

/-- C5 (amended): after a 2xx response the stored refresh token is
re-extracted from the `Set-Cookie` headers by both `get` and `postRaw` —
overwritten when a refresh-token cookie is present, kept unchanged when
not.  After a non-2xx response the whole client state (the stored refresh
token included) is unchanged: the `ApiError` is thrown before the
extraction line runs. -/
theorem get_postRaw_refresh_token_rotation (st : ClientState)
    (res : HttpResponse) :
    (Biro3Client.get st res).1.refreshToken =
      specRefreshTokenAfterResponse st res ∧
    (Biro3Client.postRaw st res).1.refreshToken =
      specRefreshTokenAfterResponse st res ∧
    (res.ok = false →
      (Biro3Client.get st res).1 = st ∧ (Biro3Client.postRaw st res).1 = st) := by
  by_cases hok : res.ok
  · simp [Biro3Client.get, Biro3Client.postRaw, specRefreshTokenAfterResponse, hok]
  · have hok' : res.ok = false := by simpa using hok
    simp [Biro3Client.get, Biro3Client.postRaw, specRefreshTokenAfterResponse, hok']

/-- C5, counterexample to the claim as stated: a 401 response carrying
`Set-Cookie: refresh-token=new; ...` is processed by `get`/`postRaw`, the
cookie is present and extractable, and yet the stored refresh token still
holds the old value — on a header-bearing failure the token is not
re-extracted, because the throw happens first. -/
theorem get_postRaw_non2xx_no_rotation_cex :
    recordLookup (parseCookies rotating401Response.setCookies) "refresh-token" =
      some "new" ∧
    (Biro3Client.get staleTokenClient rotating401Response).1.refreshToken =
      some "old" ∧
    (Biro3Client.postRaw staleTokenClient rotating401Response).1.refreshToken =
      some "old" ∧
    (Biro3Client.get staleTokenClient rotating401Response).2 =
      .error (.api 401 "HTTP 401: Unauthorized") := by
  refine ⟨rfl, rfl, rfl, rfl⟩

/-- C4: the cache-hit side holds — a cached `getExercise`/`getSubjectInstance`
call returns the cached object with no network request and cannot throw
(the oracle here is an error that would be thrown if a request were made) —
but the miss side of `getSubjectInstance` is broken: after fetching a list
whose only element has `subjectInstanceId` 5, `getSubjectInstance 5` has
correctly stored that entity in the cache, yet returns `undefined`, because
line 254 indexes the fetched *array* by the entity id.  A second identical
call then returns the entity from the cache, contradicting the first. -/
theorem getSubjectInstance_miss_returns_wrong_element :
    (getSubjectInstance initialClientState 5 (.ok [sampleSubjectInstance])).result =
      .ok none ∧
    (match (getSubjectInstance initialClientState 5
        (.ok [sampleSubjectInstance])).state.subjectInstances with
     | some cache => recordLookup cache 5
     | none => none) = some sampleSubjectInstance ∧
    (getSubjectInstance (getSubjectInstance initialClientState 5
        (.ok [sampleSubjectInstance])).state 5
        (.error (.jsError "unused: no second request"))).result =
      .ok (some sampleSubjectInstance) ∧
    (getSubjectInstance (getSubjectInstance initialClientState 5
        (.ok [sampleSubjectInstance])).state 5
        (.error (.jsError "unused: no second request"))).networkCalls = 0 ∧
    (getExercise exerciseCachedClient 7
        (.error (.jsError "unused: no request on a hit"))).result =
      .ok sampleExercise ∧
    (getExercise exerciseCachedClient 7
        (.error (.jsError "unused: no request on a hit"))).networkCalls = 0 := by
  refine ⟨rfl, rfl, rfl, rfl, rfl, rfl⟩

/-- A report item with well-formed base64 decodes without throwing, to the
parsed JSON or to the raw text as `JSON.parse` decides. -/
theorem decodeReportItem_valid_base64 (it : FileEntry)
    (h : (atob it.content).isSome = true) :
    decodeReportItem it = .ok (specDecodedReport it) := by
  rcases hat : atob it.content with _ | bytes
  · rw [hat] at h
    simp at h
  · simp only [decodeReportItem, specDecodedReport, hat, Option.getD_some]
    cases jsonParse (utf8Decode bytes) <;> rfl

/-- An uploaded-file item with well-formed base64 decodes without
throwing. -/
theorem decodeFileItem_valid_base64 (it : FileEntry)
    (h : (atob it.content).isSome = true) :
    decodeFileItem it = .ok (specDecodedFile it) := by
  rcases hat : atob it.content with _ | bytes
  · rw [hat] at h
    simp at h
  · simp only [decodeFileItem, specDecodedFile, hat, Option.getD_some]

/-- A decode loop whose every step succeeds produces the mapped list. -/
theorem mapExceptList_all_ok {β γ : Type} (f : β → Except Err γ) (g : β → γ)
    (l : List β) (h : ∀ x ∈ l, f x = .ok (g x)) :
    mapExceptList f l = .ok (l.map g) := by
  induction l with
  | nil => rfl
  | cons x xs ih =>
    rw [mapExceptList, h x (by simp), ih (fun y hy => h y (by simp [hy]))]
    rfl

/-- C6 (amended): for payloads whose base64 is well-formed, the fetch never
fails because of a decode error — in `fetchReports` a JSON parse failure is
swallowed and the entry degrades to the decoded text — but a payload with
malformed base64 makes `atob` throw outside any `try`, in `fetchReports`
and `fetchSubmissionFiles` alike, and that error fails the whole fetch. -/
theorem fetch_decode_valid_base64_never_fails (st st2 : ClientState)
    (evaluationId submissionId : Nat) (items files : List FileEntry)
    (h1 : ∀ it ∈ items, (atob it.content).isSome = true)
    (h2 : ∀ it ∈ files, (atob it.content).isSome = true) :
    (fetchReports st evaluationId (.ok items)).result =
      .ok (items.map specDecodedReport) ∧
    (fetchSubmissionFiles st2 submissionId (.ok files)).result =
      .ok (files.map specDecodedFile) := by
  constructor
  · have hm := mapExceptList_all_ok decodeReportItem specDecodedReport items
      (fun it hit => decodeReportItem_valid_base64 it (h1 it hit))
    simp [fetchReports, hm]
  · have hm := mapExceptList_all_ok decodeFileItem specDecodedFile files
      (fun it hit => decodeFileItem_valid_base64 it (h2 it hit))
    simp [fetchSubmissionFiles, hm]

/-- C6, witness: a fetch of two well-formed report payloads (one JSON, one
plain text) and one well-formed uploaded file succeeds. -/
theorem fetch_decode_valid_base64_never_fails_witness :
    (fetchReports initialClientState 3 (.ok mixedReportItems)).result =
      .ok (mixedReportItems.map specDecodedReport) ∧
    (fetchSubmissionFiles initialClientState 4 (.ok uploadedFileItems)).result =
      .ok (uploadedFileItems.map specDecodedFile) :=
  fetch_decode_valid_base64_never_fails initialClientState initialClientState
    3 4 mixedReportItems uploadedFileItems (by decide) (by decide)

/-- C6, counterexample to the claim as stated: one malformed-base64 payload
makes the whole `fetchReports` and the whole `fetchSubmissionFiles` fail
with the uncaught `atob` error (and nothing is cached), instead of
degrading that entry. -/
theorem fetch_decode_bad_base64_fails_cex :
    (fetchReports initialClientState 1 (.ok badBase64Items)).result =
      .error (.jsError "InvalidCharacterError") ∧
    (fetchReports initialClientState 1 (.ok badBase64Items)).state.reports = [] ∧
    (fetchSubmissionFiles initialClientState 2 (.ok badBase64Items)).result =
      .error (.jsError "InvalidCharacterError") := by
  refine ⟨rfl, rfl, rfl⟩

/-- C7: the report decode round-trips as a case split on JSON
parseability — base64 of `hello` decodes to the text `hello`, which fails
JSON parsing and is stored as the raw-text representation; base64 of the
JSON text with `report_type` `X` and an empty `tests` array parses into the
structured representation, whose `report_type` field is `X`. -/
theorem report_roundtrip_text_and_structured :
    utf8Decode ((atob helloBase64).getD []) = "hello" ∧
    jsonParse "hello" = none ∧
    (fetchReports initialClientState 9
        (.ok [⟨"out.txt", helloBase64⟩, ⟨"res.json", structuredReportBase64⟩])).result =
      .ok [⟨"out.txt", .text "hello"⟩,
        ⟨"res.json", .json (.obj [("report_type", .str "X"), ("tests", .arr [])])⟩] ∧
    objGet (.obj [("report_type", .str "X"), ("tests", .arr [])]) "report_type" =
      some (.str "X") := by
  refine ⟨rfl, rfl, rfl, rfl⟩

/-- C8: for every exercise id, filename and file content, the multipart
body `submitFile` builds is exactly the three parts in order — the empty
`submissionName` field, the post-deadline confirmation field with the text
`false`, and the file field carrying `JSON.stringify(filename)` and the
fixed `application/octet-stream` content type — followed by the closing
boundary delimiter, with every line CRLF-terminated. -/
theorem submitFileBody_three_parts (filename filecontent : String) :
    submitFileBody filename filecontent = specMultipartBody filename filecontent := by
  simp only [submitFileBody, specMultipartBody, specSubmissionNamePart,
    specPostDeadlinePart, specFilePart, appendLine, String.append_assoc,
    String.append_empty, String.empty_append]

/-- C8, witness: the body for a concrete filename and content. -/
theorem submitFileBody_three_parts_witness :
    submitFileBody "main.py" "print(1)" = specMultipartBody "main.py" "print(1)" :=
  submitFileBody_three_parts "main.py" "print(1)"
